import Mathlib

/-
Verification development for the SCHELETRO Manager point-of-sale application
(single source file app.py).  The definitions below are a shallow embedding of
the Sale Transaction Engine: monetary amounts are modelled as rationals,
Python float `round(x, 2)` is modelled as rounding to the nearest multiple of
1/100 with ties going to the even multiple (the semantics of the Python
built-in `round`), DataFrame tables are modelled as lists of typed rows, and
the Streamlit/Google-Sheets I/O boundary is modelled by passing the outcome of
each remote read or write explicitly.
-/

/-
The Batteries rational primitives are irreducible by default; evaluating the
engine on concrete inputs (`decide`) needs them to unfold.
-/

attribute [local semireducible] Rat.mul Rat.add Rat.sub Rat.inv

/-
Rounding model.  `rhe q` is the integer nearest to `q`, ties to even, and
`round2 q` rounds `q` to two decimal places, modelling `round(q, 2)`.
-/

def rhe (q : ℚ) : ℤ :=
  let f := ⌊q⌋
  let r := q - f
  if r < 1/2 then f
  else if 1/2 < r then f + 1
  else if f % 2 = 0 then f else f + 1

def round2 (q : ℚ) : ℚ := mkRat (rhe (q * 100)) 100

/-
String primitives, modelling the Python methods the engine uses.  `strip`
models `str.strip()` (drop whitespace at both ends), `lower` models
`str.lower()` (the strings compared are ASCII), `contains_sub` models the
`in` substring test, and `split_dash` models `str.split` at the dash used by
the identifier pattern.  They are written over the character list of the
string so that all of them reduce inside the kernel.
-/

def strip (s : String) : String :=
  String.mk (((s.data.dropWhile Char.isWhitespace).reverse.dropWhile Char.isWhitespace).reverse)

def lower (s : String) : String :=
  String.mk (s.data.map Char.toLower)

def starts_with : List Char → List Char → Bool
  | _, [] => true
  | [], _ :: _ => false
  | c :: cs, p :: ps => c = p && starts_with cs ps

def contains_chars : List Char → List Char → Bool
  | [], pat => pat.isEmpty
  | c :: cs, pat => starts_with (c :: cs) pat || contains_chars cs pat

def contains_sub (s pat : String) : Bool :=
  contains_chars s.data pat.data

def split_dash : List Char → List (List Char)
  | [] => [[]]
  | c :: rest =>
    let r := split_dash rest
    if c = '-' then [] :: r
    else
      match r with
      | g :: gs => (c :: g) :: gs
      | [] => [[c]]

/-
Configuration, modelling the `Config` worksheet after numeric coercion by
`_clean_number`: each parameter is either absent (the Python `cfg.get`
default applies) or present with an already-coerced value.
-/

structure Config where
  comision_tarjeta_porc : Option ℚ
  comision_pce_porc : Option ℚ
  bodega_1_nombre : Option String
  bodega_2_nombre : Option String
deriving DecidableEq

/-
`comision_porcentaje(metodo_pago, cfg, override_pce)` from app.py lines
642-651: lower-cased, stripped payment method; the card method gets the
configured card rate (default 0.023), cash on delivery gets the override when
supplied and the configured PCE rate (default 0.0299) otherwise, and every
other method gets 0.
-/

def comision_porcentaje (metodo_pago : String) (cfg : Config) (override_pce : Option ℚ) : ℚ :=
  let m := lower (strip metodo_pago)
  let tarjeta := cfg.comision_tarjeta_porc.getD (mkRat 23 1000)
  let pce := cfg.comision_pce_porc.getD (mkRat 299 10000)
  if m = "tarjeta" then tarjeta
  else if m = "contra entrega" then
    match override_pce with
    | some o => o
    | none => pce
  else 0

/-
The two physical stock locations.  Internally the code uses the strings
"Casa" and "Bodega"; `fmt_bodega` maps them to the display names coming from
the configuration, with the source defaults.
-/

inductive Bodega
  | casa
  | bodega
deriving DecidableEq

def fmt_bodega (cfg : Config) (b : Bodega) : String :=
  match b with
  | .casa =>
    let s := strip (cfg.bodega_1_nombre.getD "Casa Chiky")
    if s = "" then "Casa Chiky" else s
  | .bodega =>
    let s := strip (cfg.bodega_2_nombre.getD "Gamaliel")
    if s = "" then "Gamaliel" else s

/-
Cart lines (session_state["cart"] entries, app.py lines 1769-1782) keeping
the fields the transaction engine reads.
-/

structure CartItem where
  sku : String
  cantidad : Int
  precio_unitario : ℚ
  descuento_unitario : ℚ
  subtotal_linea : ℚ
deriving DecidableEq

/-
Add-line pricing (app.py lines 1754-1758): the unit discount is silently
clamped to the unit list price, then the line subtotal is
round((precio - desc) * qty, 2).
-/

def clamp_descuento (precio_unit desc_u : ℚ) : ℚ :=
  if desc_u > precio_unit then precio_unit else desc_u

def subtotal_linea_calc (precio_unit desc_u : ℚ) (qty : Int) : ℚ :=
  round2 ((precio_unit - clamp_descuento precio_unit desc_u) * (qty : ℚ))

/-
Sale totals (app.py lines 1860-1866).
-/

def total_lineas_calc (cart : List CartItem) : ℚ :=
  if cart.isEmpty then 0 else round2 ((cart.map (·.subtotal_linea)).sum)

def total_cobrado_calc (cart : List CartItem) (envio_cliente : ℚ) : ℚ :=
  round2 (total_lineas_calc cart + envio_cliente)

def com_monto_calc (total_cobrado com_porc : ℚ) : ℚ :=
  round2 (total_cobrado * com_porc)

def monto_a_recibir_calc (total_cobrado costo_courier com_monto : ℚ) : ℚ :=
  round2 (total_cobrado - costo_courier - com_monto)

/-
Pre-save validation of the sale form (app.py lines 1911-1922), recording the
individual problems in the order the code collects them.
-/

inductive Problem
  | carritoVacio
  | clienteVacio
  | totalNoPositivo
deriving DecidableEq

def venta_problems (cart : List CartItem) (cliente : String) (total_cobrado : ℚ) :
    List Problem :=
  (if cart.isEmpty then [Problem.carritoVacio] else [])
    ++ (if strip cliente = "" then [Problem.clienteVacio] else [])
    ++ (if total_cobrado ≤ 0 then [Problem.totalNoPositivo] else [])

def can_save (cart : List CartItem) (cliente : String) (total_cobrado : ℚ) : Bool :=
  venta_problems cart cliente total_cobrado |>.isEmpty

/-
Sequential ID allocator (app.py lines 622-636 and 775-789).  An identifier
matches the pattern `^V-(\d{4})-(\d{4})$` (resp. `E-...`) exactly when
splitting on "-" yields the letter followed by two four-digit groups.
-/

def digits_to_nat (cs : List Char) : Nat :=
  cs.foldl (fun a c => a * 10 + (c.toNat - 48)) 0

def is4digits (cs : List Char) : Bool :=
  cs.length == 4 && cs.all Char.isDigit

def parse_seq_id (letter : Char) (s : String) : Option (Nat × Nat) :=
  match split_dash s.data with
  | [p, y, n] =>
    if p = [letter] && is4digits y && is4digits n then
      some (digits_to_nat y, digits_to_nat n)
    else none
  | _ => none

def zfill4 (n : Nat) : String :=
  let s := toString n
  String.mk (List.replicate (4 - s.length) '0' ++ s.toList)

def venta_id_scan (year : Nat) : Nat → List String → Nat
  | max_n, [] => max_n
  | max_n, vid :: rest =>
    match parse_seq_id 'V' (strip vid) with
    | some (y, n) => venta_id_scan year (if y = year ∧ max_n < n then n else max_n) rest
    | none => venta_id_scan year max_n rest

def next_venta_id (ids : List String) (year : Nat) : String :=
  "V-" ++ toString year ++ "-" ++ zfill4 (venta_id_scan year 0 ids + 1)

def egreso_id_scan (year : Nat) : Nat → List String → Nat
  | max_n, [] => max_n
  | max_n, eid :: rest =>
    match parse_seq_id 'E' (strip eid) with
    | some (y, n) => egreso_id_scan year (if y = year ∧ max_n < n then n else max_n) rest
    | none => egreso_id_scan year max_n rest

def next_egreso_id (ids : List String) (year : Nat) : String :=
  "E-" ++ toString year ++ "-" ++ zfill4 (egreso_id_scan year 0 ids + 1)

/-
Specification-side characterisation of the allocator: the numeric suffixes of
the identifiers that match the pattern and belong to the target year.
-/

def seq_suffixes (letter : Char) (ids : List String) (year : Nat) : List Nat :=
  ids.filterMap fun s =>
    match parse_seq_id letter (strip s) with
    | some (y, n) => if y = year then some n else none
    | none => none

/-
Rate-limit detection (`_is_rate_limit`, app.py lines 324-326): the exception
text contains one of three marker substrings.  `contains_sub s pat` holds
exactly when `pat` occurs in `s`.
-/

def is_rate_limit (e : String) : Bool :=
  contains_sub e "code\x27: 429" || contains_sub e "RESOURCE_EXHAUSTED"
    || contains_sub e "RATE_LIMIT_EXCEEDED"

/-
Surfaced user messages (st.warning / st.error).
-/

inductive Sev
  | warning
  | error
deriving DecidableEq

structure Msg where
  sev : Sev
  text : String
deriving DecidableEq

def rl_read_warning : String :=
  "Google Sheets esta rate-limited (429). Usando cache/local vacio temporalmente."

def rl_read_error : String :=
  "Google Sheets esta rate-limited (429). Espera un momento y reintenta."

def rl_write_error : String :=
  "Google Sheets te limito por demasiadas solicitudes (error 429) al ESCRIBIR."

/-
Reads (app.py lines 338-405).  A raw table is a list of rows of cells.  The
outcome of one remote `conn.read` call is passed in explicitly.  The three
`@st.cache_data` tiers `_cached_read_45/_cached_read_180/_cached_read_600`
have textually identical bodies, modelled once by `cached_read`; `read_path`
models the TTL routing of `load_raw_sheet`, including the coercion
`ttl_s = int(ttl_s or 45)` that maps a requested TTL of 0 to 45.
-/

def Df : Type := List (List String)

instance : DecidableEq Df := by
  unfold Df
  infer_instance

def emptyDf : Df := ([] : List (List String))

inductive ReadOutcome
  | ok (df : Df)
  | err (msg : String)
deriving DecidableEq

inductive ReadPath
  | direct
  | cache45
  | cache180
  | cache600
deriving DecidableEq

def read_path (ttl_s : Int) : ReadPath :=
  let t : Int := if ttl_s = 0 then 45 else ttl_s
  if t ≤ 0 then .direct
  else if t ≤ 60 then .cache45
  else if t ≤ 300 then .cache180
  else .cache600

def cached_read (r : ReadOutcome) : Df × List Msg :=
  match r with
  | .ok df => (df, [])
  | .err e =>
    (emptyDf,
      [⟨Sev.warning, if is_rate_limit e then rl_read_warning else "No se pudo leer: " ++ e⟩])

def load_raw_sheet (ttl_s : Int) (r : ReadOutcome) : Except String (Df × List Msg) :=
  match read_path ttl_s with
  | .direct =>
    match r with
    | .ok df => .ok (df, [])
    | .err e =>
      if is_rate_limit e then .ok (emptyDf, [⟨Sev.error, rl_read_error⟩])
      else .error e
  | _ => .ok (cached_read r)

/-
Writes (`save_sheet`, app.py lines 409-426): the single write point.  On a
rate-limit exception it surfaces an error and returns normally, leaving the
remote table as it was and skipping the cache clear; any other exception
propagates; on success the new data replaces the table and the whole cache is
cleared.  The result carries (table contents after the call, whether the
cache was cleared, surfaced messages).
-/

def save_sheet {α : Type} (current newData : List α) (w : Except String Unit) :
    Except String (List α × Bool × List Msg) :=
  match w with
  | .ok _ => .ok (newData, true, [])
  | .error e =>
    if is_rate_limit e then .ok (current, false, [⟨Sev.error, rl_write_error⟩])
    else .error e

/-
Inventory rows (`Inventario` sheet after `load_inventario`), keeping the
columns the Stock Ledger reads and writes: SKU (already stripped by
load_inventario), the two integer stock columns, and the Activo flag used by
the transfer screen filter.
-/

structure InvRow where
  sku : String
  stock_casa : Int
  stock_bodega : Int
  activo : Bool
deriving DecidableEq

def col_stock_get (b : Bodega) (r : InvRow) : Int :=
  match b with
  | .casa => r.stock_casa
  | .bodega => r.stock_bodega

def col_stock_set (b : Bodega) (r : InvRow) (v : Int) : InvRow :=
  match b with
  | .casa => { r with stock_casa := v }
  | .bodega => { r with stock_bodega := v }

deriving instance DecidableEq for Except

/-
Errors raised inside the sale-commit try block (all are caught by the
`except` handler at app.py line 2031, which surfaces them and stops).
-/

inductive VentaErr
  | skuNoEncontrado (sku : String)
  | stockInsuficiente (sku : String) (available pedido : Int)
  | storeError (msg : String)
deriving DecidableEq

/-
Pre-commit stock validation (app.py lines 1934-1948): for each cart line,
look the stripped SKU up in the freshly loaded inventory (first matching row)
and raise on a missing SKU or on `available < pedido`.
-/

def lookupSKU (inv : List InvRow) (sku_i : String) : Option InvRow :=
  inv.find? (fun r => r.sku == sku_i)

def validate_cart (inv : List InvRow) (b : Bodega) : List CartItem → Except VentaErr Unit
  | [] => .ok ()
  | item :: rest =>
    match lookupSKU inv (strip item.sku) with
    | none => .error (.skuNoEncontrado (strip item.sku))
    | some r =>
      if col_stock_get b r < item.cantidad then
        .error (.stockInsuficiente (strip item.sku) (col_stock_get b r) item.cantidad)
      else validate_cart inv b rest

/-
Stock decrement (app.py lines 2010-2021): for each cart line, decrement the
chosen warehouse column of the first row whose SKU matches, raising if no row
matches.
-/

def dec_sku (b : Bodega) (sku_i : String) (qty : Int) :
    List InvRow → Except VentaErr (List InvRow)
  | [] => .error (.skuNoEncontrado sku_i)
  | r :: rest =>
    if r.sku == sku_i then
      .ok (col_stock_set b r (col_stock_get b r - qty) :: rest)
    else
      (dec_sku b sku_i qty rest).map (r :: ·)

def descontar_stock (b : Bodega) : List InvRow → List CartItem → Except VentaErr (List InvRow)
  | inv, [] => .ok inv
  | inv, item :: rest => do
    let inv2 ← dec_sku b (strip item.sku) item.cantidad inv
    descontar_stock b inv2 rest

/-
Sale header row (`Ventas_Cabecera`) and detail row (`Ventas_Detalle`) as the
commit builds them (app.py lines 1960-1995); cosmetic catalogue columns of
the detail row (Producto, Drop, Color, Talla) are omitted.
-/

structure CabRow where
  venta_id : String
  fecha : String
  hora : String
  cliente : String
  metodo_pago : String
  envio_cobrado_total : ℚ
  costo_logistica_total : ℚ
  comision_porc : ℚ
  total_lineas : ℚ
  total_cobrado : ℚ
  comision_monto : ℚ
  monto_a_recibir : ℚ
  notas : String
  estado : String
deriving DecidableEq

structure DetRow where
  venta_id : String
  linea : Nat
  sku : String
  bodega_salida : String
  cantidad : Int
  precio_unitario : ℚ
  descuento_unitario : ℚ
  subtotal_linea : ℚ
deriving DecidableEq

/-
The sale form: the widget and session state the save handler reads, plus the
timestamp pieces computed from `datetime.now`.
-/

structure VentaForm where
  cart : List CartItem
  bodega_venta : Bodega
  cliente : String
  notas : String
  metodo_pago : String
  envio_cliente : ℚ
  costo_courier : ℚ
  override_pce : Option ℚ
  fecha : String
  hora : String
  year : Nat
deriving DecidableEq

/-
The remote store: the three tables a sale commit touches.
-/

structure Remote where
  cab : List CabRow
  det : List DetRow
  inv : List InvRow
deriving DecidableEq

def mk_cab_row (cfg : Config) (f : VentaForm) (venta_id : String) : CabRow :=
  let tc := total_cobrado_calc f.cart f.envio_cliente
  let cp := comision_porcentaje f.metodo_pago cfg f.override_pce
  let cm := com_monto_calc tc cp
  { venta_id := venta_id
    fecha := f.fecha
    hora := f.hora
    cliente := strip f.cliente
    metodo_pago := f.metodo_pago
    envio_cobrado_total := f.envio_cliente
    costo_logistica_total := f.costo_courier
    comision_porc := cp
    total_lineas := total_lineas_calc f.cart
    total_cobrado := tc
    comision_monto := cm
    monto_a_recibir := monto_a_recibir_calc tc f.costo_courier cm
    notas := strip f.notas
    estado := "COMPLETADA" }

def mk_det_rows_from (venta_id bodega_label : String) : Nat → List CartItem → List DetRow
  | _, [] => []
  | i, item :: rest =>
    { venta_id := venta_id
      linea := i
      sku := (strip item.sku)
      bodega_salida := bodega_label
      cantidad := item.cantidad
      precio_unitario := item.precio_unitario
      descuento_unitario := item.descuento_unitario
      subtotal_linea := item.subtotal_linea } :: mk_det_rows_from venta_id bodega_label (i + 1) rest

def mk_det_rows (f : VentaForm) (venta_id bodega_label : String) : List DetRow :=
  mk_det_rows_from venta_id bodega_label 1 f.cart

/-
Outcome of one commit attempt: `aborted e` is the except-branch at app.py
line 2031 (error surfaced, sequence halted), `completed id` is the success
banner at line 2024.
-/

inductive CommitResult
  | aborted (e : VentaErr)
  | completed (venta_id : String)
deriving DecidableEq

/-
The sale commit (app.py lines 1929-2029).  The three fresh pre-commit reads
are the current remote tables; `w1, w2, w3` are the outcomes of the three
`conn.update` calls (header, detail, inventory), in the order the code issues
them.  Stock validation runs before any write; the stock decrement is
computed between the detail write and the inventory write; a failed write
raises and is caught by the surrounding handler, aborting the rest of the
sequence without any rollback.
-/

def registrar_venta (cfg : Config) (f : VentaForm) (remote : Remote)
    (w1 w2 w3 : Except String Unit) : Remote × CommitResult :=
  match validate_cart remote.inv f.bodega_venta f.cart with
  | .error e => (remote, .aborted e)
  | .ok _ =>
    let venta_id := next_venta_id (remote.cab.map (·.venta_id)) f.year
    let cab_row := mk_cab_row cfg f venta_id
    let det_rows := mk_det_rows f venta_id (fmt_bodega cfg f.bodega_venta)
    match save_sheet remote.cab (remote.cab ++ [cab_row]) w1 with
    | .error m => (remote, .aborted (.storeError m))
    | .ok (cab1, _, _) =>
      let r1 : Remote := { remote with cab := cab1 }
      match save_sheet r1.det (r1.det ++ det_rows) w2 with
      | .error m => (r1, .aborted (.storeError m))
      | .ok (det1, _, _) =>
        let r2 : Remote := { r1 with det := det1 }
        match descontar_stock f.bodega_venta remote.inv f.cart with
        | .error e => (r2, .aborted e)
        | .ok inv_upd =>
          match save_sheet r2.inv inv_upd w3 with
          | .error m => (r2, .aborted (.storeError m))
          | .ok (inv1, _, _) => ({ r2 with inv := inv1 }, .completed venta_id)

/-
The warehouse transfer (app.py lines 1161-1215).  `casa_stock` and
`bod_stock` are the integers shown in the UI, taken from the row selected in
the cached inventory snapshot `inv_latest`; `_can_move` validates the
requested quantity against those cached numbers and, when it fails, the
button is disabled and an error is shown (`blocked`).  On click the code
clears the cache, re-reads the inventory, filters it to active rows, and
moves `qty` between the two stock columns of the first row matching the SKU
without re-validating against the fresh read; `done inv` means `save_sheet`
was called with the updated table `inv`.  `to_bodega = true` is the
Casa-to-Bodega direction.
-/

inductive TransferResult
  | blocked
  | skuMissing
  | done (newInv : List InvRow)
deriving DecidableEq

def update_first_sku (b_from b_to : Bodega) (sku : String) (qty : Int) :
    List InvRow → List InvRow
  | [] => []
  | r :: rest =>
    if r.sku == sku then
      col_stock_set b_to (col_stock_set b_from r (col_stock_get b_from r - qty))
        (col_stock_get b_to r + qty) :: rest
    else r :: update_first_sku b_from b_to sku qty rest

def transferir (casa_stock bod_stock : Int) (to_bodega : Bool) (qty : Int)
    (inv_fresh : List InvRow) (sku : String) : TransferResult :=
  let ok := if to_bodega then !(qty > casa_stock) else !(qty > bod_stock)
  if !ok then .blocked
  else
    let filtered := inv_fresh.filter (·.activo)
    if (filtered.find? (·.sku == sku)).isNone then .skuMissing
    else
      let src := if to_bodega then Bodega.casa else Bodega.bodega
      let dst := if to_bodega then Bodega.bodega else Bodega.casa
      .done (update_first_sku src dst sku qty filtered)

/-
Helper predicate used to state insufficiency of one cart line against a
given inventory snapshot (decidable, for concrete evaluation).
-/

def insuff_line (inv : List InvRow) (b : Bodega) (it : CartItem) : Bool :=
  match lookupSKU inv (strip it.sku) with
  | some r => decide (col_stock_get b r < it.cantidad)
  | none => false

/-
Modelled from the spec words, for comparison with the source behaviour
(claim C7): a total computed with the requested discount clamped to
list price plus shipping, `total = max(0, base_price + shipping - discount)`.
-/

def spec_total_with_clamp (precio envio desc : ℚ) : ℚ :=
  max 0 (precio + envio - (if desc > precio + envio then precio + envio else desc))

/-
General lemmas.
-/

theorem rhe_intCast (k : ℤ) : rhe (k : ℚ) = k := by
  unfold rhe
  norm_num

theorem mkRat_hundred (n : ℤ) : mkRat n 100 = (n : ℚ) / 100 := by
  rw [Rat.mkRat_eq_divInt, Rat.divInt_eq_div]
  norm_num

theorem round2_eq_div (q : ℚ) : round2 q = (rhe (q * 100) : ℚ) / 100 := by
  unfold round2
  exact mkRat_hundred _

theorem round2_cent (k : ℤ) : round2 ((k : ℚ) / 100) = (k : ℚ) / 100 := by
  rw [round2_eq_div, div_mul_cancel₀ (k : ℚ) (by norm_num : (100 : ℚ) ≠ 0), rhe_intCast]

theorem round2_is_cent (q : ℚ) : ∃ k : ℤ, round2 q = (k : ℚ) / 100 :=
  ⟨rhe (q * 100), round2_eq_div q⟩

theorem rhe_nonneg (q : ℚ) (h : 0 ≤ q) : 0 ≤ rhe q := by
  unfold rhe
  have hf : (0 : ℤ) ≤ ⌊q⌋ := Int.le_floor.mpr (by exact_mod_cast h)
  dsimp only
  split
  · exact hf
  · split
    · omega
    · split <;> omega

theorem round2_nonneg (q : ℚ) (h : 0 ≤ q) : 0 ≤ round2 q := by
  rw [round2_eq_div]
  have h1 : (0 : ℤ) ≤ rhe (q * 100) := rhe_nonneg _ (by positivity)
  positivity

theorem foldl_max_acc (l : List Nat) (a b : Nat) :
    l.foldl Nat.max (Nat.max a b) = Nat.max a (l.foldl Nat.max b) := by
  induction l generalizing b with
  | nil => rfl
  | cons c t ih =>
    simp only [List.foldl_cons, Nat.max_assoc]
    exact ih (Nat.max b c)

theorem ite_lt_eq_max (acc n : Nat) : (if acc < n then n else acc) = Nat.max acc n := by
  rcases Nat.lt_or_ge acc n with h | h
  · simp [h, Nat.max_eq_right (Nat.le_of_lt h)]
  · simp [Nat.not_lt.mpr h, Nat.max_eq_left h]

theorem max_fold_step (acc n : Nat) (l : List Nat) :
    Nat.max (Nat.max acc n) (l.foldl Nat.max 0) = Nat.max acc (l.foldl Nat.max (Nat.max 0 n)) := by
  have h0 : Nat.max 0 n = Nat.max n 0 := Nat.max_comm 0 n
  rw [h0, foldl_max_acc]
  exact Nat.max_assoc acc n _

theorem venta_id_scan_eq (year : Nat) (ids : List String) (acc : Nat) :
    venta_id_scan year acc ids = Nat.max acc ((seq_suffixes 'V' ids year).foldl Nat.max 0) := by
  induction ids generalizing acc with
  | nil => simp [venta_id_scan, seq_suffixes]
  | cons vid rest ih =>
    cases hp : parse_seq_id 'V' (strip vid) with
    | none =>
      have hs : seq_suffixes 'V' (vid :: rest) year = seq_suffixes 'V' rest year := by
        simp [seq_suffixes, List.filterMap_cons, hp]
      rw [hs]
      simpa [venta_id_scan, hp] using ih acc
    | some yn =>
      obtain ⟨y, n⟩ := yn
      by_cases hy : y = year
      · subst hy
        have hs : seq_suffixes 'V' (vid :: rest) y = n :: seq_suffixes 'V' rest y := by
          simp [seq_suffixes, List.filterMap_cons, hp]
        have hcond : (if y = y ∧ acc < n then n else acc) = Nat.max acc n := by
          simp only [eq_self_iff_true, true_and]
          exact ite_lt_eq_max acc n
        rw [hs]
        calc venta_id_scan y acc (vid :: rest)
            = venta_id_scan y (Nat.max acc n) rest := by
              simp only [venta_id_scan, hp]
              congr 1
              simp only [eq_self_iff_true, true_and]
              exact ite_lt_eq_max acc n
          _ = Nat.max (Nat.max acc n) ((seq_suffixes 'V' rest y).foldl Nat.max 0) := ih _
          _ = Nat.max acc ((n :: seq_suffixes 'V' rest y).foldl Nat.max 0) := by
              rw [List.foldl_cons]
              exact max_fold_step acc n _
      · have hs : seq_suffixes 'V' (vid :: rest) year = seq_suffixes 'V' rest year := by
          simp [seq_suffixes, List.filterMap_cons, hp, hy]
        have hcond : (if y = year ∧ acc < n then n else acc) = acc := by simp [hy]
        rw [hs]
        calc venta_id_scan year acc (vid :: rest)
            = venta_id_scan year acc rest := by simp only [venta_id_scan, hp, hcond]
          _ = _ := ih acc

theorem egreso_id_scan_eq (year : Nat) (ids : List String) (acc : Nat) :
    egreso_id_scan year acc ids = Nat.max acc ((seq_suffixes 'E' ids year).foldl Nat.max 0) := by
  induction ids generalizing acc with
  | nil => simp [egreso_id_scan, seq_suffixes]
  | cons eid rest ih =>
    cases hp : parse_seq_id 'E' (strip eid) with
    | none =>
      have hs : seq_suffixes 'E' (eid :: rest) year = seq_suffixes 'E' rest year := by
        simp [seq_suffixes, List.filterMap_cons, hp]
      rw [hs]
      simpa [egreso_id_scan, hp] using ih acc
    | some yn =>
      obtain ⟨y, n⟩ := yn
      by_cases hy : y = year
      · subst hy
        have hs : seq_suffixes 'E' (eid :: rest) y = n :: seq_suffixes 'E' rest y := by
          simp [seq_suffixes, List.filterMap_cons, hp]
        have hcond : (if y = y ∧ acc < n then n else acc) = Nat.max acc n := by
          simp only [eq_self_iff_true, true_and]
          exact ite_lt_eq_max acc n
        rw [hs]
        calc egreso_id_scan y acc (eid :: rest)
            = egreso_id_scan y (Nat.max acc n) rest := by
              simp only [egreso_id_scan, hp]
              congr 1
              simp only [eq_self_iff_true, true_and]
              exact ite_lt_eq_max acc n
          _ = Nat.max (Nat.max acc n) ((seq_suffixes 'E' rest y).foldl Nat.max 0) := ih _
          _ = Nat.max acc ((n :: seq_suffixes 'E' rest y).foldl Nat.max 0) := by
              rw [List.foldl_cons]
              exact max_fold_step acc n _
      · have hs : seq_suffixes 'E' (eid :: rest) year = seq_suffixes 'E' rest year := by
          simp [seq_suffixes, List.filterMap_cons, hp, hy]
        have hcond : (if y = year ∧ acc < n then n else acc) = acc := by simp [hy]
        rw [hs]
        calc egreso_id_scan year acc (eid :: rest)
            = egreso_id_scan year acc rest := by simp only [egreso_id_scan, hp, hcond]
          _ = _ := ih acc

theorem validate_cart_insuff (inv : List InvRow) (b : Bodega) (cart : List CartItem)
    (hfound : ∀ it ∈ cart, (lookupSKU inv (strip it.sku)).isSome)
    (hinsuff : ∃ it ∈ cart, insuff_line inv b it = true) :
    ∃ s a p, validate_cart inv b cart = .error (.stockInsuficiente s a p) := by
  induction cart with
  | nil => simp at hinsuff
  | cons item rest ih =>
    have hfound_item := hfound item (by simp)
    cases hl : lookupSKU inv (strip item.sku) with
    | none => rw [hl] at hfound_item; simp at hfound_item
    | some r =>
      by_cases hc : col_stock_get b r < item.cantidad
      · exact ⟨(strip item.sku), col_stock_get b r, item.cantidad, by
          simp [validate_cart, hl, hc]⟩
      · have hrest : ∃ it ∈ rest, insuff_line inv b it = true := by
          obtain ⟨it, hit, hins⟩ := hinsuff
          rcases List.mem_cons.mp hit with h | h
          · subst h
            unfold insuff_line at hins
            rw [hl] at hins
            simp [hc] at hins
          · exact ⟨it, h, hins⟩
        obtain ⟨s, a, p, hv⟩ :=
          ih (fun it hit => hfound it (List.mem_cons_of_mem _ hit)) hrest
        exact ⟨s, a, p, by simp [validate_cart, hl, hc, hv]⟩

/-- C1 counterexample: the claim calls the pre-commit inventory read
"uncached", but the commit requests it with `ttl_s = 0`
(`load_inventario(conn, ttl_s=0)`, app.py line 1932) and `load_raw_sheet`
coerces the TTL with `int(ttl_s or 45)`, so a requested TTL of 0 is routed to
the 45-second `st.cache_data` tier rather than to the direct (uncached)
branch. -/
theorem C1_counterexample_precommit_read_cached :
    read_path 0 = ReadPath.cache45 ∧ ReadPath.cache45 ≠ ReadPath.direct := by
  decide

/-- C1 (amended): for every sale commit, if the pre-commit read of the
inventory (requested with TTL 0 but served through the 45-second cache tier)
shows, for some cart line, an available quantity in the chosen warehouse
strictly below that line's requested quantity — and every cart line's SKU is
present in that read — then the commit fails with the insufficient-stock
error and no write occurs to any of the three tables (the returned remote
state is unchanged). -/
theorem C1_insufficient_stock_aborts_without_write
    (cfg : Config) (f : VentaForm) (remote : Remote) (w1 w2 w3 : Except String Unit)
    (hfound : ∀ it ∈ f.cart, (lookupSKU remote.inv (strip it.sku)).isSome)
    (hinsuff : ∃ it ∈ f.cart, insuff_line remote.inv f.bodega_venta it = true) :
    ∃ s a p, registrar_venta cfg f remote w1 w2 w3
      = (remote, .aborted (.stockInsuficiente s a p)) := by
  obtain ⟨s, a, p, hv⟩ := validate_cart_insuff remote.inv f.bodega_venta f.cart hfound hinsuff
  exact ⟨s, a, p, by simp [registrar_venta, hv]⟩

/-- C1 witness: a one-line cart requesting 5 units of SKU A while the fresh
read shows 3 available in Casa aborts with the insufficient-stock error and
leaves all three remote tables untouched. -/
theorem C1_witness : ∃ s a p,
    registrar_venta ⟨none, none, none, none⟩
      ⟨[⟨"A", 5, 10, 0, 50⟩], Bodega.casa, "Ana", "", "Transferencia", 0, 0, none,
        "2025-10-12", "10:00:00", 2025⟩
      ⟨[], [], [⟨"A", 3, 0, true⟩]⟩ (.ok ()) (.ok ()) (.ok ())
      = (⟨[], [], [⟨"A", 3, 0, true⟩]⟩, .aborted (.stockInsuficiente s a p)) :=
  C1_insufficient_stock_aborts_without_write _ _ _ _ _ _ (by decide) (by decide)

/-- C2: the claim fails on the sale-commit decrement.  A cart holding two
lines for the same SKU (2 + 2 units against a fresh stock of 3 in Casa)
passes the per-line validation, the commit completes, and the inventory
write leaves Stock_Casa = -1, a negative value. -/
theorem C2_duplicate_sku_cart_drives_stock_negative :
    (registrar_venta ⟨none, none, none, none⟩
        ⟨[⟨"A", 2, 10, 0, 20⟩, ⟨"A", 2, 10, 0, 20⟩], Bodega.casa, "Ana", "",
          "Transferencia", 0, 0, none, "2025-10-12", "10:00:00", 2025⟩
        ⟨[], [], [⟨"A", 3, 0, true⟩]⟩ (.ok ()) (.ok ()) (.ok ())).1.inv
      = [⟨"A", -1, 0, true⟩]
    ∧ (registrar_venta ⟨none, none, none, none⟩
        ⟨[⟨"A", 2, 10, 0, 20⟩, ⟨"A", 2, 10, 0, 20⟩], Bodega.casa, "Ana", "",
          "Transferencia", 0, 0, none, "2025-10-12", "10:00:00", 2025⟩
        ⟨[], [], [⟨"A", 3, 0, true⟩]⟩ (.ok ()) (.ok ()) (.ok ())).2
      = CommitResult.completed "V-2025-0001"
    ∧ ¬ (0 : Int) ≤ -1 := by
  decide

/-- C3 counterexample: the transfer does NOT fail when the freshly-read
source column lacks the requested quantity.  With a cached (validation-time)
Casa stock of 5, a requested quantity of 4 passes `_can_move`; the fresh read
then shows only 1 unit in Casa, yet the code writes the decrement anyway,
producing Stock_Casa = -3.  So the universally quantified claim is false. -/
theorem C3_counterexample_transfer_ignores_fresh_read :
    ¬ (∀ (casa_stock bod_stock qty : Int) (to_bodega : Bool) (inv : List InvRow)
          (sku : String) (r : InvRow),
        (inv.filter (·.activo)).find? (·.sku == sku) = some r →
        (if to_bodega then r.stock_casa else r.stock_bodega) < qty →
        transferir casa_stock bod_stock to_bodega qty inv sku = .blocked) := by
  intro h
  have h5 := h 5 0 4 true [⟨"A", 1, 0, true⟩] "A" ⟨"A", 1, 0, true⟩ (by decide) (by decide)
  have hdone : transferir 5 0 true 4 [⟨"A", 1, 0, true⟩] "A"
      = TransferResult.done [⟨"A", -3, 4, true⟩] := by decide
  rw [hdone] at h5
  exact absurd h5 (by decide)

/-- C3 (amended): the transfer validates against the stock numbers of the
cached snapshot shown at validation time, not against the fresh pre-write
read: whenever the source column of that cached snapshot lacks the requested
quantity the operation is blocked with an insufficient-stock message and no
write is performed; the subsequent fresh read is only used as the base table
for the decrement, without re-validation. -/
theorem C3_transfer_blocked_on_stale_insufficient
    (casa_stock bod_stock qty : Int) (to_bodega : Bool) (inv : List InvRow) (sku : String)
    (h : (if to_bodega then casa_stock else bod_stock) < qty) :
    transferir casa_stock bod_stock to_bodega qty inv sku = .blocked := by
  cases to_bodega <;> simp_all [transferir]

/-- C3 witness: a request to move 1 unit from Casa when the cached snapshot
shows 0 there is blocked. -/
theorem C3_witness :
    transferir 0 0 true 1 [⟨"A", 9, 9, true⟩] "A" = .blocked :=
  C3_transfer_blocked_on_stale_insufficient 0 0 1 true [⟨"A", 9, 9, true⟩] "A" (by decide)

/-- C4 counterexample: at scenario B (two lines of 30.00 and 45.00, shipping
0.00, method Tarjeta at the default card rate 0.023) the code computes a
commission of 1.72, not the claimed 1.73.  The Python built-in `round` rounds
half to even, and the float product `75 * 0.023` is in fact
7768709357214105/2^52, strictly below 1.725, so both the exact-rational model
(tie 172.5 going to the even 172) and the actual binary64 value round to
1.72. -/
theorem C4_counterexample_commission_is_172 :
    com_monto_calc (total_cobrado_calc [⟨"L1", 1, 30, 0, 30⟩, ⟨"L2", 1, 45, 0, 45⟩] 0)
        (comision_porcentaje "Tarjeta" ⟨none, none, none, none⟩ none) = 172/100
    ∧ round2 (mkRat 7768709357214105 4503599627370496) = 172/100
    ∧ ¬ (172/100 : ℚ) = 173/100 := by
  have h3 : (mkRat 172 100 : ℚ) = 172/100 := by
    rw [Rat.mkRat_eq_divInt, Rat.divInt_eq_div]
    norm_num
  refine ⟨(by decide : _ = mkRat 172 100).trans h3,
    (by decide : _ = mkRat 172 100).trans h3, by norm_num⟩

/-- C4 (amended): scenario B yields total_charged = 75.00, commission_amount
= 1.72 (not 1.73), and net_to_receive = round2(75.00 - courier_cost - 1.72).
-/
theorem C4_scenarioB_totals (costo_courier : ℚ) :
    total_cobrado_calc [⟨"L1", 1, 30, 0, 30⟩, ⟨"L2", 1, 45, 0, 45⟩] 0 = 75
    ∧ com_monto_calc 75 (comision_porcentaje "Tarjeta" ⟨none, none, none, none⟩ none) = 172/100
    ∧ monto_a_recibir_calc 75 costo_courier (172/100)
        = round2 (75 - costo_courier - 172/100) := by
  have h3 : (mkRat 172 100 : ℚ) = 172/100 := by
    rw [Rat.mkRat_eq_divInt, Rat.divInt_eq_div]
    norm_num
  refine ⟨by decide, (by decide : _ = mkRat 172 100).trans h3, rfl⟩

/-- C5: the commission percentage is the configured card rate for "Tarjeta"
(default 0.023), the caller-supplied override for "Contra Entrega" when one
is given, the configured PCE rate (default 0.0299) for "Contra Entrega"
without an override, and 0 for every other method (in particular
"Transferencia" and "Efectivo"); and the commission amount — both the
standalone computation and the field of every header row the engine builds —
is total_charged times that percentage, rounded to 2 decimals. -/
theorem C5_comision_por_metodo (cfg : Config) (o : Option ℚ) (p total : ℚ)
    (f : VentaForm) (vid m : String)
    (h1 : lower (strip m) ≠ "tarjeta") (h2 : lower (strip m) ≠ "contra entrega") :
    comision_porcentaje "Tarjeta" cfg o = cfg.comision_tarjeta_porc.getD (23/1000)
    ∧ comision_porcentaje "Contra Entrega" cfg (some p) = p
    ∧ comision_porcentaje "Contra Entrega" cfg none = cfg.comision_pce_porc.getD (299/10000)
    ∧ comision_porcentaje "Transferencia" cfg o = 0
    ∧ comision_porcentaje "Efectivo" cfg o = 0
    ∧ comision_porcentaje m cfg o = 0
    ∧ com_monto_calc total (comision_porcentaje m cfg o)
        = round2 (total * comision_porcentaje m cfg o)
    ∧ (mk_cab_row cfg f vid).comision_monto
        = round2 ((mk_cab_row cfg f vid).total_cobrado
            * comision_porcentaje f.metodo_pago cfg f.override_pce) := by
  have hd1 : (mkRat 23 1000 : ℚ) = 23/1000 := by
    rw [Rat.mkRat_eq_divInt, Rat.divInt_eq_div]
    norm_num
  have hd2 : (mkRat 299 10000 : ℚ) = 299/10000 := by
    rw [Rat.mkRat_eq_divInt, Rat.divInt_eq_div]
    norm_num
  have ht : lower (strip "Tarjeta") = "tarjeta" := by decide
  have hc : lower (strip "Contra Entrega") = "contra entrega" := by decide
  have hct : lower (strip "Contra Entrega") ≠ "tarjeta" := by decide
  have htr : lower (strip "Transferencia") ≠ "tarjeta"
      ∧ lower (strip "Transferencia") ≠ "contra entrega" := by decide
  have hef : lower (strip "Efectivo") ≠ "tarjeta"
      ∧ lower (strip "Efectivo") ≠ "contra entrega" := by decide
  refine ⟨?_, ?_, ?_, ?_, ?_, ?_, rfl, rfl⟩
  · simp [comision_porcentaje, ht, hd1]
  · simp [comision_porcentaje, hc, hct]
  · simp [comision_porcentaje, hc, hct, hd2]
  · simp [comision_porcentaje, htr.1, htr.2]
  · simp [comision_porcentaje, hef.1, hef.2]
  · simp [comision_porcentaje, h1, h2]

/-- C5 witness: the dispatch evaluated at a concrete configuration (card rate
3%, PCE rate 2%), a concrete override of 7%, and the remaining method
"Efectivo". -/
theorem C5_witness :
    comision_porcentaje "Tarjeta" ⟨some (3/100), some (2/100), none, none⟩ none = 3/100
    ∧ comision_porcentaje "Contra Entrega" ⟨some (3/100), some (2/100), none, none⟩
        (some (7/100)) = 7/100
    ∧ comision_porcentaje "Contra Entrega" ⟨some (3/100), some (2/100), none, none⟩ none = 2/100
    ∧ comision_porcentaje "Efectivo" ⟨some (3/100), some (2/100), none, none⟩ none = 0 := by
  have h := C5_comision_por_metodo ⟨some (3/100), some (2/100), none, none⟩ none (7/100) 10
    ⟨[], Bodega.casa, "", "", "", 0, 0, none, "", "", 2025⟩ "V-2025-0001" "Efectivo"
    (by decide) (by decide)
  exact ⟨h.1, h.2.1, h.2.2.1, h.2.2.2.2.1⟩

/-- C6: every header row the commit appends stores
Monto_A_Recibir = round2(Total_Cobrado - Costo_Logistica_Total - Comision_Monto);
when the courier cost is an exact amount of cents (as every monetary input
is) the rounding is the identity, so the stated equality
Monto_A_Recibir = Total_Cobrado - Costo_Logistica_Total - Comision_Monto
holds exactly; and whenever the header write succeeds, the header table after
the commit is the old table with exactly this row appended. -/
theorem C6_monto_a_recibir (cfg : Config) (f : VentaForm) (vid : String)
    (remote : Remote) (w2 w3 : Except String Unit)
    (hk : ∃ k : ℤ, f.costo_courier = (k : ℚ) / 100)
    (hval : validate_cart remote.inv f.bodega_venta f.cart = .ok ()) :
    (mk_cab_row cfg f vid).monto_a_recibir
      = round2 ((mk_cab_row cfg f vid).total_cobrado
          - (mk_cab_row cfg f vid).costo_logistica_total
          - (mk_cab_row cfg f vid).comision_monto)
    ∧ (mk_cab_row cfg f vid).monto_a_recibir
      = (mk_cab_row cfg f vid).total_cobrado
          - (mk_cab_row cfg f vid).costo_logistica_total
          - (mk_cab_row cfg f vid).comision_monto
    ∧ (registrar_venta cfg f remote (.ok ()) w2 w3).1.cab
      = remote.cab ++ [mk_cab_row cfg f (next_venta_id (remote.cab.map (·.venta_id)) f.year)] := by
  refine ⟨rfl, ?_, ?_⟩
  · obtain ⟨k, hk⟩ := hk
    obtain ⟨z1, h1⟩ := round2_is_cent (total_lineas_calc f.cart + f.envio_cliente)
    obtain ⟨z2, h2⟩ := round2_is_cent
      (total_cobrado_calc f.cart f.envio_cliente
        * comision_porcentaje f.metodo_pago cfg f.override_pce)
    have htc : total_cobrado_calc f.cart f.envio_cliente = (z1 : ℚ) / 100 := h1
    have hcm : com_monto_calc (total_cobrado_calc f.cart f.envio_cliente)
        (comision_porcentaje f.metodo_pago cfg f.override_pce) = (z2 : ℚ) / 100 := h2
    show monto_a_recibir_calc (total_cobrado_calc f.cart f.envio_cliente) f.costo_courier
        (com_monto_calc (total_cobrado_calc f.cart f.envio_cliente)
          (comision_porcentaje f.metodo_pago cfg f.override_pce))
      = total_cobrado_calc f.cart f.envio_cliente - f.costo_courier
          - com_monto_calc (total_cobrado_calc f.cart f.envio_cliente)
              (comision_porcentaje f.metodo_pago cfg f.override_pce)
    rw [monto_a_recibir_calc, hcm, htc, hk]
    have hsum : (z1 : ℚ) / 100 - (k : ℚ) / 100 - (z2 : ℚ) / 100
        = ((z1 - k - z2 : ℤ) : ℚ) / 100 := by
      push_cast
      ring
    rw [hsum, round2_cent]
  · simp only [registrar_venta, hval, save_sheet]
    cases w2 with
    | ok u =>
      simp only [save_sheet]
      cases hd : descontar_stock f.bodega_venta remote.inv f.cart with
      | error e => rfl
      | ok inv_upd =>
        cases w3 with
        | ok v => rfl
        | error e3 =>
          by_cases hr3 : is_rate_limit e3
          · simp [hr3]
          · simp [hr3]
    | error e2 =>
      by_cases hr2 : is_rate_limit e2
      · simp only [save_sheet, hr2, if_pos]
        cases hd : descontar_stock f.bodega_venta remote.inv f.cart with
        | error e => rfl
        | ok inv_upd =>
          cases w3 with
          | ok v => rfl
          | error e3 =>
            by_cases hr3 : is_rate_limit e3
            · simp [hr3]
            · simp [hr3]
      · simp [hr2]

/-- C6 witness: the theorem applied at a concrete sale (one line of 2 units
at 10.00, shipping 1.50, courier cost 0.07, method Transferencia) against a
concrete store. -/
theorem C6_witness :
    (mk_cab_row ⟨none, none, none, none⟩
        ⟨[⟨"A", 2, 10, 0, 20⟩], Bodega.casa, "Ana", "", "Transferencia", 3/2, 7/100, none,
          "2025-10-12", "10:00:00", 2025⟩ "V-2025-0001").monto_a_recibir
      = (mk_cab_row ⟨none, none, none, none⟩
          ⟨[⟨"A", 2, 10, 0, 20⟩], Bodega.casa, "Ana", "", "Transferencia", 3/2, 7/100, none,
            "2025-10-12", "10:00:00", 2025⟩ "V-2025-0001").total_cobrado
        - (mk_cab_row ⟨none, none, none, none⟩
            ⟨[⟨"A", 2, 10, 0, 20⟩], Bodega.casa, "Ana", "", "Transferencia", 3/2, 7/100, none,
              "2025-10-12", "10:00:00", 2025⟩ "V-2025-0001").costo_logistica_total
        - (mk_cab_row ⟨none, none, none, none⟩
            ⟨[⟨"A", 2, 10, 0, 20⟩], Bodega.casa, "Ana", "", "Transferencia", 3/2, 7/100, none,
              "2025-10-12", "10:00:00", 2025⟩ "V-2025-0001").comision_monto
    ∧ (registrar_venta ⟨none, none, none, none⟩
        ⟨[⟨"A", 2, 10, 0, 20⟩], Bodega.casa, "Ana", "", "Transferencia", 3/2, 7/100, none,
          "2025-10-12", "10:00:00", 2025⟩
        ⟨[], [], [⟨"A", 3, 0, true⟩]⟩ (.ok ()) (.ok ()) (.ok ())).1.cab
      = [] ++ [mk_cab_row ⟨none, none, none, none⟩
          ⟨[⟨"A", 2, 10, 0, 20⟩], Bodega.casa, "Ana", "", "Transferencia", 3/2, 7/100, none,
            "2025-10-12", "10:00:00", 2025⟩
          (next_venta_id (([] : List CabRow).map (·.venta_id)) 2025)] := by
  have h := C6_monto_a_recibir ⟨none, none, none, none⟩
    ⟨[⟨"A", 2, 10, 0, 20⟩], Bodega.casa, "Ana", "", "Transferencia", 3/2, 7/100, none,
      "2025-10-12", "10:00:00", 2025⟩ "V-2025-0001"
    ⟨[], [], [⟨"A", 3, 0, true⟩]⟩ (.ok ()) (.ok ())
    ⟨7, by norm_num⟩ (by decide)
  exact ⟨h.2.1, h.2.2⟩

/-- C7 counterexample: the discount is clamped to the unit list price alone,
not to list_price + shipping.  With list price 20.00, shipping 5.00 and a
requested unit discount of 22.00, the code clamps the discount to 20.00
(line subtotal 0.00, total charged 5.00), while the claimed clamp bound
20 + 5 = 25 would leave the 22.00 discount untouched and give a total of
3.00. -/
theorem C7_counterexample_clamp_bound :
    clamp_descuento 20 22 = 20
    ∧ subtotal_linea_calc 20 22 1 = 0
    ∧ total_cobrado_calc [⟨"X", 1, 20, clamp_descuento 20 22, subtotal_linea_calc 20 22 1⟩] 5 = 5
    ∧ spec_total_with_clamp 20 5 22 = 3
    ∧ ¬ (5 : ℚ) = 3 := by
  refine ⟨by decide, by decide, by decide, ?_, by norm_num⟩
  show max 0 (20 + 5 - (if (22 : ℚ) > 20 + 5 then 20 + 5 else 22)) = 3
  norm_num

/-- C7 (amended): a requested unit discount exceeding the unit list price is
silently clamped to the list price before the line subtotal is computed, so
line subtotals — and with non-negative shipping the total charged — are never
negative; in particular a 999 discount against list price 20 with shipping 0
clamps to 20, the line subtotal and total charged are 0.00, and the commit is
then rejected by the non-positive-total validation rule (the only problem
reported), not by a negative-number error. -/
theorem C7_discount_clamped_to_price (precio desc envio : ℚ) (qty : Int)
    (cart : List CartItem) (h0 : 0 ≤ qty) (hsub : ∀ it ∈ cart, 0 ≤ it.subtotal_linea)
    (henv : 0 ≤ envio) :
    0 ≤ subtotal_linea_calc precio desc qty
    ∧ 0 ≤ total_cobrado_calc cart envio
    ∧ clamp_descuento 20 999 = 20
    ∧ subtotal_linea_calc 20 999 1 = 0
    ∧ total_cobrado_calc [⟨"A", 1, 20, 20, 0⟩] 0 = 0
    ∧ venta_problems [⟨"A", 1, 20, 20, 0⟩] "Ana" (total_cobrado_calc [⟨"A", 1, 20, 20, 0⟩] 0)
        = [Problem.totalNoPositivo]
    ∧ can_save [⟨"A", 1, 20, 20, 0⟩] "Ana" (total_cobrado_calc [⟨"A", 1, 20, 20, 0⟩] 0)
        = false := by
  refine ⟨?_, ?_, by decide, by decide, by decide, by decide, by decide⟩
  · apply round2_nonneg
    have hdiff : 0 ≤ precio - clamp_descuento precio desc := by
      unfold clamp_descuento
      split
      · linarith
      · linarith [le_of_not_gt (by assumption : ¬ desc > precio)]
    have hq : (0 : ℚ) ≤ (qty : ℚ) := by exact_mod_cast h0
    positivity
  · apply round2_nonneg
    have htl : 0 ≤ total_lineas_calc cart := by
      unfold total_lineas_calc
      split
      · exact le_refl 0
      · apply round2_nonneg
        apply List.sum_nonneg
        intro x hx
        obtain ⟨it, hit, rfl⟩ := List.mem_map.mp hx
        exact hsub it hit
    linarith

/-- C7 witness: the theorem applied at the scenario-D inputs (price 20,
requested discount 999, quantity 1, a cart holding that clamped line, and
shipping 0). -/
theorem C7_witness :
    0 ≤ subtotal_linea_calc 20 999 1
    ∧ 0 ≤ total_cobrado_calc [⟨"A", 1, 20, 20, 0⟩] 0
    ∧ can_save [⟨"A", 1, 20, 20, 0⟩] "Ana" (total_cobrado_calc [⟨"A", 1, 20, 20, 0⟩] 0)
        = false := by
  have h := C7_discount_clamped_to_price 20 999 0 1 [⟨"A", 1, 20, 20, 0⟩]
    (by decide) (by decide) (by norm_num)
  exact ⟨h.1, h.2.1, h.2.2.2.2.2.2⟩

/-- C8: for every list of existing identifiers and target year, the
allocator scans the identifiers matching the pattern V-YYYY-NNNN
(resp. E-YYYY-NNNN), ignores those that do not match or belong to other
years, and returns the maximum numeric suffix for the target year plus 1,
zero-padded to 4 digits — the suffix 0001 when no identifier exists for that
year. -/
theorem C8_next_id_max_plus_one (ids : List String) (year : Nat) :
    next_venta_id ids year
      = "V-" ++ toString year ++ "-"
          ++ zfill4 ((seq_suffixes 'V' ids year).foldl Nat.max 0 + 1)
    ∧ next_egreso_id ids year
      = "E-" ++ toString year ++ "-"
          ++ zfill4 ((seq_suffixes 'E' ids year).foldl Nat.max 0 + 1)
    ∧ (seq_suffixes 'V' ids year = [] →
        next_venta_id ids year = "V-" ++ toString year ++ "-" ++ "0001")
    ∧ (seq_suffixes 'E' ids year = [] →
        next_egreso_id ids year = "E-" ++ toString year ++ "-" ++ "0001") := by
  have hmax0 : ∀ n : Nat, Nat.max 0 n = n := fun n => by
    cases n
    · rfl
    · rfl
  refine ⟨?_, ?_, ?_, ?_⟩
  · unfold next_venta_id
    rw [venta_id_scan_eq, hmax0]
  · unfold next_egreso_id
    rw [egreso_id_scan_eq, hmax0]
  · intro h
    unfold next_venta_id
    rw [venta_id_scan_eq, h]
    rfl
  · intro h
    unfold next_egreso_id
    rw [egreso_id_scan_eq, h]
    rfl

/-- C8 witness: a table containing a sale id of another year, a non-matching
identifier, a five-digit suffix (ignored by the pattern) and two matching
2025 ids allocates V-2025-0008; a table with no 2024 expense id allocates
E-2024-0001. -/
theorem C8_witness :
    next_venta_id ["V-2025-0007", "junk", "V-2024-0099", "V-2025-12345", " V-2025-0003"] 2025
      = "V-" ++ toString 2025 ++ "-" ++ zfill4 (7 + 1)
    ∧ next_egreso_id ["E-2025-0009", "nope"] 2024 = "E-" ++ toString 2024 ++ "-" ++ "0001" := by
  have h1 := C8_next_id_max_plus_one
    ["V-2025-0007", "junk", "V-2024-0099", "V-2025-12345", " V-2025-0003"] 2025
  have h2 := C8_next_id_max_plus_one ["E-2025-0009", "nope"] 2024
  refine ⟨?_, h2.2.2.2 (by decide)⟩
  rw [h1.1]
  decide

/-- C9: for every table read whose remote call fails with a detected
rate-limit (429-class) condition, the read returns an empty result with a
surfaced message instead of raising: each cached tier returns the empty
table with the rate-limit warning, and `load_raw_sheet` — for every
requested TTL, so on the cache tiers and on the direct (forced-fresh)
branch alike — returns `.ok` with the empty table and one surfaced warning
or error message, never `.error`. -/
theorem C9_rate_limited_reads_degrade (ttl_s : Int) (e : String)
    (h : is_rate_limit e = true) :
    cached_read (.err e) = (emptyDf, [⟨Sev.warning, rl_read_warning⟩])
    ∧ ∃ m : Msg, load_raw_sheet ttl_s (.err e) = .ok (emptyDf, [m]) := by
  constructor
  · simp [cached_read, h]
  · unfold load_raw_sheet
    cases hp : read_path ttl_s
    · exact ⟨⟨Sev.error, rl_read_error⟩, by simp [h]⟩
    · exact ⟨⟨Sev.warning, rl_read_warning⟩, by simp [cached_read, h]⟩
    · exact ⟨⟨Sev.warning, rl_read_warning⟩, by simp [cached_read, h]⟩
    · exact ⟨⟨Sev.warning, rl_read_warning⟩, by simp [cached_read, h]⟩

/-- C9 witness: a RESOURCE_EXHAUSTED failure on the forced-fresh path
(negative TTL reaches the direct branch) degrades to an empty table with a
surfaced message. -/
theorem C9_witness :
    cached_read (.err "RESOURCE_EXHAUSTED")
      = (emptyDf, [⟨Sev.warning, rl_read_warning⟩])
    ∧ ∃ m : Msg, load_raw_sheet (-1) (.err "RESOURCE_EXHAUSTED") = .ok (emptyDf, [m]) :=
  C9_rate_limited_reads_degrade (-1) "RESOURCE_EXHAUSTED" (by decide)

/-- C10: when a write raises a rate-limit error, save_sheet surfaces an
error and returns normally, leaving the table unchanged and not clearing
the cache (the Bool in its result); consequently a sale commit whose header
write is rate-limited still performs the detail and stock writes: the
commit reports success, the detail table gains the sale's rows and the
inventory is decremented, while the header table is unchanged — the sale's
detail rows and stock decrement are persisted without its header row. -/
theorem C10_rate_limited_header_write_not_fatal
    (cfg : Config) (f : VentaForm) (remote : Remote) (e : String) (inv_upd : List InvRow)
    (hrl : is_rate_limit e = true)
    (hval : validate_cart remote.inv f.bodega_venta f.cart = .ok ())
    (hdec : descontar_stock f.bodega_venta remote.inv f.cart = .ok inv_upd) :
    save_sheet remote.cab
        (remote.cab ++ [mk_cab_row cfg f (next_venta_id (remote.cab.map (·.venta_id)) f.year)])
        (.error e)
      = .ok (remote.cab, false, [⟨Sev.error, rl_write_error⟩])
    ∧ registrar_venta cfg f remote (.error e) (.ok ()) (.ok ())
      = (⟨remote.cab,
          remote.det ++ mk_det_rows f (next_venta_id (remote.cab.map (·.venta_id)) f.year)
            (fmt_bodega cfg f.bodega_venta),
          inv_upd⟩,
         .completed (next_venta_id (remote.cab.map (·.venta_id)) f.year)) := by
  constructor
  · simp [save_sheet, hrl]
  · simp [registrar_venta, hval, save_sheet, hrl, hdec]

/-- C10 witness: a concrete one-line sale whose header write hits a 429:
the commit completes, the detail row and the decremented inventory are
written, and the header table stays empty. -/
theorem C10_witness :
    registrar_venta ⟨none, none, none, none⟩
        ⟨[⟨"A", 1, 10, 0, 10⟩], Bodega.casa, "Ana", "", "Transferencia", 0, 0, none,
          "2025-10-12", "10:00:00", 2025⟩
        ⟨[], [], [⟨"A", 3, 0, true⟩]⟩
        (.error "RATE_LIMIT_EXCEEDED") (.ok ()) (.ok ())
      = (⟨[],
          [] ++ mk_det_rows
            ⟨[⟨"A", 1, 10, 0, 10⟩], Bodega.casa, "Ana", "", "Transferencia", 0, 0, none,
              "2025-10-12", "10:00:00", 2025⟩
            (next_venta_id (([] : List CabRow).map (·.venta_id)) 2025)
            (fmt_bodega ⟨none, none, none, none⟩ Bodega.casa),
          [⟨"A", 2, 0, true⟩]⟩,
         .completed (next_venta_id (([] : List CabRow).map (·.venta_id)) 2025)) := by
  have h := C10_rate_limited_header_write_not_fatal ⟨none, none, none, none⟩
    ⟨[⟨"A", 1, 10, 0, 10⟩], Bodega.casa, "Ana", "", "Transferencia", 0, 0, none,
      "2025-10-12", "10:00:00", 2025⟩
    ⟨[], [], [⟨"A", 3, 0, true⟩]⟩ "RATE_LIMIT_EXCEEDED" [⟨"A", 2, 0, true⟩]
    (by decide) (by decide) (by decide)
  exact h.2
